/-
Verification of the searchgoat-hex client library
(src/searchgoat_hex/client.py, config.py, exceptions.py).

The library is single-threaded and performs blocking HTTP calls.  We model
each operation as a pure function: the network is an input (the response, or
a family of responses indexed by request number / offset), the clock is an
input (`now`, or a family `times` of iteration timestamps), and the
observable effects (authentication exchanges, status fetches, sleeps) are
returned as instrumentation alongside the result.  Python strings are
modelled as `List Char`; Python `json.loads` is modelled by a JSON-subset
parser `jsonLoads` (integer numerals, strings without escape sequences,
arrays, objects, `null`/`true`/`false`; Python accepts strictly more texts,
e.g. floats and escapes, which no claim here depends on).
-/
import Mathlib

set_option maxRecDepth 10000

/-- Python strings are modelled as lists of characters. -/
abbrev Str := List Char

/-- The whitespace characters stripped by Python `str.strip()` (ASCII part). -/
def pyIsWs (c : Char) : Bool :=
  c = ' ' || c = '\t' || c = '\n' || c = '\r' || c = '\x0b' || c = '\x0c'

/-- Python `s.strip()`: remove leading and trailing whitespace. -/
def pyStrip (s : Str) : Str :=
  ((s.dropWhile pyIsWs).reverse.dropWhile pyIsWs).reverse

/-- Python truthiness of a string: non-empty. -/
def strTruthy (s : Str) : Bool := !s.isEmpty

/-- Python truthiness of an `Optional[str]`: present and non-empty. -/
def optTruthy (s : Option Str) : Bool :=
  match s with
  | none => false
  | some v => strTruthy v

/-- Python `a or b` on two `Optional[str]` values: `a` when truthy, else `b`. -/
def pyOr (a b : Option Str) : Option Str :=
  if optTruthy a then a else b

/-- Python `s.split("\n")`: split at every newline, keeping empty pieces.
`"".split("\n") == [""]`, so the result is never the empty list. -/
def splitNewline : Str → List Str
  | [] => [[]]
  | c :: cs =>
    if c = '\n' then [] :: splitNewline cs
    else
      match splitNewline cs with
      | [] => [[c]]
      | l :: ls => (c :: l) :: ls

/-- JSON values, as produced by `json.loads` (integer numerals only). -/
inductive JVal where
  | jnull : JVal
  | jbool : Bool → JVal
  | jnum : Int → JVal
  | jstr : Str → JVal
  | jarr : List JVal → JVal
  | jobj : List (Str × JVal) → JVal

/-- Lookup in an object's field list; later duplicates win, as in a Python
dict built by `json.loads`. -/
def jlookup (k : Str) : List (Str × JVal) → Option JVal
  | [] => none
  | (k', v) :: fs =>
    match jlookup k fs with
    | some v' => some v'
    | none => if k' = k then some v else none

/-- Python `d.get(k)` on a parsed JSON object; `none` for non-objects
(where Python would raise `AttributeError`, handled at the call sites). -/
def JVal.get (v : JVal) (k : Str) : Option JVal :=
  match v with
  | .jobj fs => jlookup k fs
  | _ => none

/-- A value in a Python numeric comparison context: ints are themselves,
bools are 0/1 (Python `bool` is an `int` subclass); anything else is a
`TypeError` (`none`). -/
def pyNumOfJVal : JVal → Option Int
  | .jnum n => some n
  | .jbool b => some (if b then 1 else 0)
  | _ => none

/-! ### A JSON-subset parser standing for `json.loads` -/

/-- Skip JSON whitespace. -/
def skipJWs (s : Str) : Str :=
  s.dropWhile (fun c => c = ' ' || c = '\t' || c = '\n' || c = '\r')

/-- Parse the body of a JSON string after the opening quote.  Escape
sequences are not modelled (a backslash fails the parse). -/
def parseJStr : Str → Option (Str × Str)
  | [] => none
  | c :: cs =>
    if c = '"' then some ([], cs)
    else if c = '\\' then none
    else
      match parseJStr cs with
      | some (l, r) => some (c :: l, r)
      | none => none

/-- Parse a run of decimal digits into a natural number. -/
def parseDigits : Str → Nat → Option (Nat × Str)
  | [], acc => some (acc, [])
  | c :: cs, acc =>
    if c.isDigit then parseDigits cs (acc * 10 + (c.toNat - '0'.toNat))
    else some (acc, c :: cs)

/-- Parse an integer numeral (optional leading minus, at least one digit). -/
def parseJNum : Str → Option (Int × Str)
  | [] => none
  | c :: cs =>
    if c = '-' then
      match cs with
      | [] => none
      | d :: _ =>
        if d.isDigit then
          match parseDigits cs 0 with
          | some (n, r) => some (-(n : Int), r)
          | none => none
        else none
    else if c.isDigit then
      match parseDigits (c :: cs) 0 with
      | some (n, r) => some ((n : Int), r)
      | none => none
    else none

mutual

/-- Parse one JSON value (fuel-indexed recursive descent). -/
def parseJVal : Nat → Str → Option (JVal × Str)
  | 0, _ => none
  | fuel + 1, s =>
    match skipJWs s with
    | 'n' :: 'u' :: 'l' :: 'l' :: r => some (.jnull, r)
    | 't' :: 'r' :: 'u' :: 'e' :: r => some (.jbool true, r)
    | 'f' :: 'a' :: 'l' :: 's' :: 'e' :: r => some (.jbool false, r)
    | '"' :: r =>
      match parseJStr r with
      | some (l, r') => some (.jstr l, r')
      | none => none
    | '{' :: r =>
      match skipJWs r with
      | '}' :: r' => some (.jobj [], r')
      | r' =>
        match parseJMembers fuel r' with
        | some (fs, r'') => some (.jobj fs, r'')
        | none => none
    | '[' :: r =>
      match skipJWs r with
      | ']' :: r' => some (.jarr [], r')
      | r' =>
        match parseJElems fuel r' with
        | some (es, r'') => some (.jarr es, r'')
        | none => none
    | s' =>
      match parseJNum s' with
      | some (n, r) => some (.jnum n, r)
      | none => none

/-- Parse one or more `"key": value` members followed by `}`. -/
def parseJMembers : Nat → Str → Option (List (Str × JVal) × Str)
  | 0, _ => none
  | fuel + 1, s =>
    match skipJWs s with
    | '"' :: r =>
      match parseJStr r with
      | some (k, r') =>
        match skipJWs r' with
        | ':' :: r'' =>
          match parseJVal fuel r'' with
          | some (v, r3) =>
            match skipJWs r3 with
            | ',' :: r4 =>
              match parseJMembers fuel r4 with
              | some (fs, r5) => some ((k, v) :: fs, r5)
              | none => none
            | '}' :: r4 => some ([(k, v)], r4)
            | _ => none
          | none => none
        | _ => none
      | none => none
    | _ => none

/-- Parse one or more array elements followed by `]`. -/
def parseJElems : Nat → Str → Option (List JVal × Str)
  | 0, _ => none
  | fuel + 1, s =>
    match parseJVal fuel s with
    | some (v, r) =>
      match skipJWs r with
      | ',' :: r' =>
        match parseJElems fuel r' with
        | some (es, r'') => some (v :: es, r'')
        | none => none
      | ']' :: r' => some ([v], r')
      | _ => none
    | none => none

end

/-- Enough fuel to parse any value nested within `s`. -/
def parseFuelOf (s : Str) : Nat := s.length + 1

/-- Python `json.loads`: parse a complete JSON text; `none` models a raised
`json.JSONDecodeError` (in particular `jsonLoads "" = none`). -/
def jsonLoads (s : Str) : Option JVal :=
  match parseJVal (parseFuelOf s) s with
  | some (v, r) => if skipJWs r = [] then some v else none
  | none => none

/-! ### Error taxonomy (exceptions.py), plus raw Python exceptions -/

/-- The errors a call can raise.  The first four are the library's typed
errors from `exceptions.py` (`ConfigurationError`, `AuthenticationError`,
`QueryError` with its `job_id` attribute, `TimeoutError`); the remaining
constructors are raw Python exceptions that can escape the library
(`json.JSONDecodeError`, `AttributeError`, `TypeError`, `KeyError`,
`IndexError`), plus `fuelExhausted`, which marks a run that did not
terminate within the fuel supplied to a loop model. -/
inductive SgError where
  | configError (missing : List Str) (missingEnv : List Str)
  | authError (msg : Str)
  | queryError (msg : Str) (jobId : Option Str)
  | timeoutError (msg : Str)
  | jsonDecodeError
  | attributeError
  | typeError
  | keyError
  | indexError
  | fuelExhausted
deriving Repr, DecidableEq

/-- Whether an error is one of the library's four typed errors. -/
def SgError.isTypedError : SgError → Bool
  | .configError _ _ => true
  | .authError _ => true
  | .queryError _ _ => true
  | .timeoutError _ => true
  | _ => false

/-- Decimal rendering of a natural number (for f-string interpolation). -/
def natToStr (n : Nat) : Str := Nat.toDigits 10 n

/-- Decimal rendering of an integer.  (Python renders its float timeouts as
e.g. `300.0`; only the digits differ and no claim depends on them.) -/
def intToStr (i : Int) : Str :=
  if i < 0 then '-' :: natToStr i.natAbs else natToStr i.natAbs

/-- Model of `requests.Response.raise_for_status()`: it raises `HTTPError` exactly for
4xx and 5xx status codes. -/
def raiseForStatus (status : Nat) : Bool :=
  400 ≤ status && status < 600

/-- Stands for `str(e)` of the `requests.exceptions.HTTPError` raised by
`raise_for_status`; only its dependence on the status matters here. -/
def showHTTPError (status : Nat) : Str := natToStr status

/-! ### Config resolver (config.py, `load_config`) -/

/-- Structure `CriblConfig`: the four credential fields (config.py). -/
structure CriblConfig where
  client_id : Str
  client_secret : Str
  org_id : Str
  workspace : Str
deriving Repr, DecidableEq

/-- The environment: values of the four fixed-name variables
`CRIBL_CLIENT_ID`, `CRIBL_CLIENT_SECRET`, `CRIBL_ORG_ID`, `CRIBL_WORKSPACE`
(`none` = unset). -/
structure Env where
  cribl_client_id : Option Str
  cribl_client_secret : Option Str
  cribl_org_id : Option Str
  cribl_workspace : Option Str

/-- The `resolved` dict of `load_config`: each field is
`parameter or os.getenv(VAR)` (Python `or`, so an empty-string parameter
falls through to the environment). -/
def resolvedFields (client_id client_secret org_id workspace : Option Str)
    (env : Env) : List (Str × Option Str) :=
  [ ("client_id".toList, pyOr client_id env.cribl_client_id),
    ("client_secret".toList, pyOr client_secret env.cribl_client_secret),
    ("org_id".toList, pyOr org_id env.cribl_org_id),
    ("workspace".toList, pyOr workspace env.cribl_workspace) ]

/-- The fixed env-var name for each config key (the `env_vars` dict). -/
def envVarName (key : Str) : Str :=
  if key = "client_id".toList then "CRIBL_CLIENT_ID".toList
  else if key = "client_secret".toList then "CRIBL_CLIENT_SECRET".toList
  else if key = "org_id".toList then "CRIBL_ORG_ID".toList
  else "CRIBL_WORKSPACE".toList

/-- Model of `load_config` (config.py lines 42-101): resolve each credential from
the explicit parameter or the environment; if any resolved value is falsy
(absent or empty) raise `ConfigurationError` listing exactly those keys
(and their env-var names); otherwise return the complete config. -/
def load_config (client_id client_secret org_id workspace : Option Str)
    (env : Env) : Except SgError CriblConfig :=
  let resolved := resolvedFields client_id client_secret org_id workspace env
  let missing := (resolved.filter (fun p => !optTruthy p.2)).map (·.1)
  if missing.isEmpty then
    .ok { client_id := (pyOr client_id env.cribl_client_id).getD []
          client_secret := (pyOr client_secret env.cribl_client_secret).getD []
          org_id := (pyOr org_id env.cribl_org_id).getD []
          workspace := (pyOr workspace env.cribl_workspace).getD [] }
  else
    .error (.configError missing (missing.map envVarName))

/-! ### Token manager (client.py, `_get_auth_token` / `_authenticate`) -/

/-- The client's token state: `_token` and `_token_expires_at`.  Timestamps
are modelled as integers (Python uses floats; no claim depends on
fractional seconds). -/
structure TokState where
  token : Option Str
  expiresAt : Int
deriving Repr, DecidableEq

/-- Constant `_TOKEN_REFRESH_BUFFER = 300` (client.py line 43). -/
def TOKEN_REFRESH_BUFFER : Int := 300

/-- The auth endpoint's answer to one OAuth2 exchange: a transport failure
(`requests.exceptions.RequestException` other than `HTTPError`), or a
response with an HTTP status, a body text, and the parsed JSON fields
`access_token` and optional `expires_in`.  (A success body lacking
`access_token` would raise `KeyError`; not modelled, no claim touches it.) -/
inductive AuthResp where
  | transport (msg : Str)
  | resp (status : Nat) (text : Str) (accessToken : Str) (expiresIn : Option Int)

/-- Model of `_authenticate` (client.py lines 212-238): POST the client-credentials
payload; `HTTPError` becomes `AuthenticationError` carrying status and
body; other transport failures become `AuthenticationError`; on success
store the token and `expires_at = now + expires_in` (default 86400). -/
def authenticate (now : Int) (resp : AuthResp) : Except SgError TokState :=
  match resp with
  | .transport m =>
    .error (.authError ("Authentication request failed: ".toList ++ m))
  | .resp status text accessToken expiresIn =>
    if raiseForStatus status then
      .error (.authError ("Authentication failed: ".toList ++ natToStr status
        ++ " - ".toList ++ text))
    else
      .ok { token := some accessToken,
            expiresAt := now + expiresIn.getD 86400 }

/-- Model of `_get_auth_token` (client.py lines 204-210): return the cached token
when `self._token` is truthy and `now < expires_at - 300`; otherwise run
`_authenticate`.  The returned `Nat` counts authentication exchanges
performed (0 or 1) — the call's only network effect. -/
def getAuthToken (st : TokState) (now : Int) (resp : AuthResp) :
    Except SgError (Str × TokState × Nat) :=
  if optTruthy st.token ∧ now < st.expiresAt - TOKEN_REFRESH_BUFFER then
    .ok (st.token.getD [], st, 0)
  else
    match authenticate now resp with
    | .ok st' => .ok (st'.token.getD [], st', 1)
    | .error e => .error e

/-- The forced invalidation done by `test_connection` (client.py lines
112-113): `self._token = None; self._token_expires_at = 0`. -/
def invalidate (_ : TokState) : TokState := { token := none, expiresAt := 0 }

/-! ### Job submission (client.py, `_submit_job`) -/

/-- The submit endpoint's answer: a transport failure, or a response with a
status code, a body text (`response.text`) and the parsed JSON body
(`response.json()`). -/
inductive SubmitResp where
  | transport (msg : Str)
  | resp (status : Nat) (text : Str) (body : JVal)

/-- Model of `data["items"][0]["id"]` (client.py line 279), with Python's raw
exceptions for shape mismatches: a non-dict subscripted by a string or a
non-list subscripted by an int raises `TypeError`, a missing key raises
`KeyError`, an empty list raises `IndexError`.  The id is returned as
whatever JSON value it is, as Python does. -/
def extractJobId (body : JVal) : Except SgError JVal :=
  match body with
  | .jobj fs =>
    match jlookup "items".toList fs with
    | none => .error .keyError
    | some items =>
      match items with
      | .jarr l =>
        match l.head? with
        | none => .error .indexError
        | some first =>
          match first with
          | .jobj ffs =>
            match jlookup "id".toList ffs with
            | none => .error .keyError
            | some v => .ok v
          | _ => .error .typeError
      | _ => .error .typeError
  | _ => .error .typeError

/-- Model of `_submit_job` (client.py lines 252-279): POST the job payload; a 400
response raises `QueryError` with the response body in the message (this
`QueryError` is raised inside the `try` but is not a `RequestException`, so
it propagates); then `raise_for_status`, whose `HTTPError` maps 401 to
`AuthenticationError` and other 4xx/5xx to `QueryError`; other transport
failures map to `QueryError`; otherwise return `data["items"][0]["id"]`. -/
def submitJob (r : SubmitResp) : Except SgError JVal :=
  match r with
  | .transport m =>
    .error (.queryError ("Job submission failed: ".toList ++ m) none)
  | .resp status text body =>
    if status = 400 then
      .error (.queryError ("Invalid query syntax: ".toList ++ text) none)
    else if raiseForStatus status then
      if status = 401 then
        .error (.authError "Authentication failed".toList)
      else
        .error (.queryError ("Job submission failed: ".toList
          ++ showHTTPError status) none)
    else
      extractJobId body

/-! ### Poll loop (client.py, `_wait_for_job`) -/

/-- The status endpoint's answer to one poll: a transport failure, or a
response with an HTTP status whose parsed body is
`{"items": [{"status": jobStatus, "error": errorField?}]}` (the body is
only consulted when `raise_for_status` does not raise; bodies of a
different shape would raise `KeyError`, which no claim touches). -/
inductive StatusResp where
  | transport (msg : Str)
  | resp (status : Nat) (jobStatus : Str) (errorField : Option Str)

/-- The observable effects of the poll loop: status fetch number `i`, and
the `time.sleep(_POLL_INTERVAL)` ending iteration `i`. -/
inductive PollEvent where
  | fetched (i : Nat)
  | slept (i : Nat)
deriving Repr, DecidableEq

/-- The poll loop's environment: the job id, the caller timeout, the value
`start_time = time.time()` taken before the loop, the clock value read at
the top of each iteration, and the status response to each fetch. -/
structure WaitEnv where
  jobId : Str
  timeout : Int
  start : Int
  times : Nat → Int
  fetch : Nat → StatusResp

/-- The `TimeoutError` message (client.py lines 290-293). -/
def timeoutMsg (timeout : Int) : Str :=
  "Query did not complete within ".toList ++ intToStr timeout
    ++ " seconds. Try narrowing the time range or adding \x27| limit N\x27 to your query.".toList

/-- The guidance text carried by the `TimeoutError`. -/
def guidanceText : Str :=
  "Try narrowing the time range or adding \x27| limit N\x27 to your query.".toList

/-- One-step-at-a-time model of the `while True` loop of `_wait_for_job`
(client.py lines 287-315), instrumented with the list of fetch/sleep
events.  Iteration `i`: read the clock, raise `TimeoutError` if
`elapsed > timeout`; fetch the status (transport failures and `HTTPError`
are both `RequestException`s, so both map to `QueryError` — there is no
401 special case here); return on `completed`; raise `QueryError` with the
server's error message (default "Unknown error") and the job id on
`failed`; raise `QueryError` with the job id on `canceled`; otherwise
sleep and run the next iteration. -/
def waitLoop (env : WaitEnv) : Nat → Nat → List PollEvent →
    Except SgError Unit × List PollEvent
  | 0, _, evs => (.error .fuelExhausted, evs)
  | fuel + 1, i, evs =>
    if env.times i - env.start > env.timeout then
      (.error (.timeoutError (timeoutMsg env.timeout)), evs)
    else
      match env.fetch i with
      | .transport m =>
        (.error (.queryError ("Failed to check job status: ".toList ++ m) none),
         evs ++ [.fetched i])
      | .resp status jobStatus errorField =>
        let evs' := evs ++ [.fetched i]
        if raiseForStatus status then
          (.error (.queryError ("Failed to check job status: ".toList
            ++ showHTTPError status) none), evs')
        else if jobStatus = "completed".toList then
          (.ok (), evs')
        else if jobStatus = "failed".toList then
          (.error (.queryError ("Query failed: ".toList
            ++ errorField.getD "Unknown error".toList) (some env.jobId)), evs')
        else if jobStatus = "canceled".toList then
          (.error (.queryError "Query was canceled".toList (some env.jobId)), evs')
        else
          waitLoop env fuel (i + 1) (evs' ++ [.slept i])

/-- Model of `_wait_for_job` (client.py lines 281-315). -/
def waitForJob (env : WaitEnv) (fuel : Nat) :
    Except SgError Unit × List PollEvent :=
  waitLoop env fuel 0 []

/-- The fetch/sleep events of the first `k` completed (non-terminal)
iterations. -/
def prefixEvents (k : Nat) : List PollEvent :=
  ((List.range k).map (fun j => [PollEvent.fetched j, PollEvent.slept j])).flatten

/-- An iteration that keeps the loop polling: an HTTP response that
`raise_for_status` accepts, whose job status is none of `completed`,
`failed`, `canceled`. -/
def continuesPolling (r : StatusResp) : Prop :=
  ∃ status jobStatus errorField, r = .resp status jobStatus errorField ∧
    raiseForStatus status = false ∧
    jobStatus ≠ "completed".toList ∧
    jobStatus ≠ "failed".toList ∧
    jobStatus ≠ "canceled".toList

/-! ### Result pagination (client.py, `_get_results`) -/

/-- The results endpoint's answer to the fetch at one offset: a transport
failure message, or the response body text. -/
abbrev PageResp := Except Str Str

/-- What processing one page body yields (client.py lines 337-349):
`emptyLines` models the `if not lines: break` branch; `fail` a raised
Python error; `page` carries the metadata's `totalEventCount` value
(default `0`) and the parsed non-blank record lines, in order. -/
inductive PageOutcome where
  | emptyLines
  | fail (e : SgError)
  | page (totalCount : JVal) (recs : List JVal)

/-- The record lines of a page (client.py lines 347-349): every line whose
`strip()` is truthy is `json.loads`-parsed and appended, in order. -/
def parseRecords : List Str → Except SgError (List JVal)
  | [] => .ok []
  | l :: ls =>
    if strTruthy (pyStrip l) then
      match jsonLoads l with
      | none => .error .jsonDecodeError
      | some v =>
        match parseRecords ls with
        | .ok vs => .ok (v :: vs)
        | .error e => .error e
    else
      parseRecords ls

/-- Process one page body (client.py lines 337-349): strip and split the
text into lines; if there are no lines, break; `json.loads` the first line
(a decode failure propagates as a raw `json.JSONDecodeError`), read its
`totalEventCount` with `.get` and default `0` (a non-dict metadata value
would raise `AttributeError`); parse the remaining non-blank lines. -/
def processBody (body : Str) : PageOutcome :=
  match splitNewline (pyStrip body) with
  | [] => .emptyLines
  | l0 :: rest =>
    match jsonLoads l0 with
    | none => .fail .jsonDecodeError
    | some meta =>
      match meta with
      | .jobj _ =>
        match parseRecords rest with
        | .error e => .fail e
        | .ok recs => .page ((meta.get "totalEventCount".toList).getD (.jnum 0)) recs
      | _ => .fail .attributeError

/-- The fixed page size (client.py line 325). -/
def PAGE_SIZE : Nat := 1000

/-- The `while True` loop of `_get_results` (client.py lines 328-353),
fuel-indexed: fetch the page at `offset` (a `RequestException` maps to
`QueryError`); process the body; append its records; advance the offset by
the page size; stop when `total_count is None` (JSON `null`) or
`offset >= total_count` (a non-numeric count raises `TypeError`). -/
def getResultsLoop (fetch : Nat → PageResp) :
    Nat → Nat → List JVal → Except SgError (List JVal)
  | 0, _, _ => .error .fuelExhausted
  | fuel + 1, offset, acc =>
    match fetch offset with
    | .error m =>
      .error (.queryError ("Failed to retrieve results: ".toList ++ m) none)
    | .ok body =>
      match processBody body with
      | .emptyLines => .ok acc
      | .fail e => .error e
      | .page totalCount recs =>
        let acc' := acc ++ recs
        let offset' := offset + PAGE_SIZE
        match totalCount with
        | .jnull => .ok acc'
        | tc =>
          match pyNumOfJVal tc with
          | none => .error .typeError
          | some n =>
            if (offset' : Int) ≥ n then .ok acc'
            else getResultsLoop fetch fuel offset' acc'

/-- Model of `_get_results` (client.py lines 317-362), up to the final DataFrame
conversion: the list of accumulated records (the DataFrame's rows, in
order). -/
def getResults (fetch : Nat → PageResp) (fuel : Nat) :
    Except SgError (List JVal) :=
  getResultsLoop fetch fuel 0 []

/-- The number of loop iterations `_get_results` performs when every page
reports `totalEventCount = N`: the least `m ≥ 1` with `m * PAGE_SIZE ≥ N`. -/
def numPages (N : Nat) : Nat := max 1 ((N + (PAGE_SIZE - 1)) / PAGE_SIZE)

/-! ### Dataset listing (client.py, `list_datasets`) -/

/-- One item of the datasets response: its optional `id` and `name`
fields. -/
structure DItem where
  id : Option Str
  name : Option Str

/-- The datasets endpoint's answer: a transport failure, or a response
with an HTTP status and the parsed `items` list (`data.get("items", [])`,
so a missing key is the empty list). -/
inductive ListResp where
  | transport (msg : Str)
  | resp (status : Nat) (items : List DItem)

/-- Model of `item.get("id") or item.get("name", "")` (client.py line 156). -/
def datasetName (it : DItem) : Str :=
  if optTruthy it.id then it.id.getD [] else it.name.getD []

/-- Model of `list_datasets` (client.py lines 123-156): GET the datasets endpoint;
an `HTTPError` with status 401 maps to `AuthenticationError`, other
`HTTPError`s and transport failures map to `QueryError`; on success return
each item's `id`, falling back to `name`, falling back to `""`. -/
def list_datasets (r : ListResp) : Except SgError (List Str) :=
  match r with
  | .transport m =>
    .error (.queryError ("Failed to list datasets: ".toList ++ m) none)
  | .resp status items =>
    if raiseForStatus status then
      if status = 401 then
        .error (.authError "Authentication failed".toList)
      else
        .error (.queryError ("Failed to list datasets: ".toList
          ++ showHTTPError status) none)
    else
      .ok (items.map datasetName)

/-! ## Theorems -/

/-- Helper: a suffix occurs within the list. -/
lemma within_of_suffix {α : Type} {l₁ l₂ : List α} (h : l₁ <:+ l₂) :
    l₁ <:+: l₂ := by
  obtain ⟨s, hs⟩ := h
  exact ⟨s, [], by rw [List.append_nil, hs]⟩

/-- C8: `list_datasets` maps HTTP 401 to `AuthenticationError` and every
other failure (other 4xx/5xx responses, transport failures) to
`QueryError`; on success it returns, for each item in order, the `id`
field, falling back to `name`, falling back to the empty string; an empty
items list yields the empty list, not an error. -/
theorem c8_list_datasets (status : Nat) (items : List DItem) (m : Str) :
    (list_datasets (.transport m) =
      .error (.queryError ("Failed to list datasets: ".toList ++ m) none))
    ∧ (∀ its, list_datasets (.resp 401 its) =
        .error (.authError "Authentication failed".toList))
    ∧ (raiseForStatus status = true → status ≠ 401 →
        list_datasets (.resp status items) =
          .error (.queryError ("Failed to list datasets: ".toList
            ++ showHTTPError status) none))
    ∧ (raiseForStatus status = false →
        list_datasets (.resp status items) = .ok (items.map datasetName))
    ∧ (∀ it s, it.id = some s → s ≠ [] → datasetName it = s)
    ∧ (∀ it, (it.id = none ∨ it.id = some []) → datasetName it = it.name.getD [])
    ∧ (raiseForStatus status = false →
        list_datasets (.resp status []) = .ok []) := by
  refine ⟨rfl, fun its => rfl, ?_, ?_, ?_, ?_, ?_⟩
  · intro h hne
    simp only [list_datasets, h, if_true]
    rw [if_neg hne]
  · intro h
    simp [list_datasets, h]
  · intro it s hid hne
    simp [datasetName, hid, optTruthy, strTruthy, hne]
  · intro it hid
    rcases hid with h | h <;> simp [datasetName, h, optTruthy, strTruthy]
  · intro h
    simp [list_datasets, h]

/-- C8 witness: a successful listing with one id-item, one name-fallback
item and one empty-fallback item, and the empty listing. -/
theorem c8_list_datasets_witness :
    list_datasets (.resp 200 [⟨some "ds1".toList, some "n1".toList⟩,
        ⟨none, some "n2".toList⟩, ⟨none, none⟩]) =
      .ok ["ds1".toList, "n2".toList, []]
    ∧ list_datasets (.resp 200 []) = .ok [] := by
  have h := c8_list_datasets 200 [⟨some "ds1".toList, some "n1".toList⟩,
    ⟨none, some "n2".toList⟩, ⟨none, none⟩] []
  exact ⟨by simpa using h.2.2.2.1 (by decide), h.2.2.2.2.2.2 (by decide)⟩

/-- C4 counterexample: the claim says every non-2xx status other than
400/401 raises `QueryError`, but `raise_for_status` only raises for 4xx
and 5xx: a 303 response with a well-formed body makes `_submit_job` return
the job id instead of raising. -/
theorem c4_counterexample :
    submitJob (.resp 303 [] (.jobj [("items".toList,
        .jarr [.jobj [("id".toList, .jstr "j1".toList)]])])) =
      .ok (.jstr "j1".toList)
    ∧ (∀ msg jid, submitJob (.resp 303 [] (.jobj [("items".toList,
        .jarr [.jobj [("id".toList, .jstr "j1".toList)]])])) ≠
      .error (.queryError msg jid)) := by
  constructor
  · rfl
  · intro msg jid h
    rw [show submitJob (.resp 303 [] (.jobj [("items".toList,
      .jarr [.jobj [("id".toList, .jstr "j1".toList)]])])) =
      .ok (.jstr "j1".toList) from rfl] at h
    exact Except.noConfusion h

/-- C4 (amended): `_submit_job` raises `QueryError` containing the response
body text on status 400, `AuthenticationError` on 401, `QueryError` on any
other 4xx/5xx status and on transport failure, and on any status that
`raise_for_status` accepts it returns the id of the first item of the
response body's `items` list. -/
theorem c4_submit_job (status : Nat) (text m : Str) (body : JVal) :
    (submitJob (.transport m) =
      .error (.queryError ("Job submission failed: ".toList ++ m) none))
    ∧ (submitJob (.resp 400 text body) =
        .error (.queryError ("Invalid query syntax: ".toList ++ text) none)
       ∧ text <:+: ("Invalid query syntax: ".toList ++ text))
    ∧ (submitJob (.resp 401 text body) =
        .error (.authError "Authentication failed".toList))
    ∧ (status ≠ 400 → status ≠ 401 → raiseForStatus status = true →
        submitJob (.resp status text body) =
          .error (.queryError ("Job submission failed: ".toList
            ++ showHTTPError status) none))
    ∧ (∀ items first v, raiseForStatus status = false →
        body.get "items".toList = some (.jarr items) →
        items.head? = some first →
        first.get "id".toList = some v →
        submitJob (.resp status text body) = .ok v) := by
  refine ⟨rfl, ⟨rfl, within_of_suffix (List.suffix_append _ _)⟩, rfl, ?_, ?_⟩
  · intro h400 h401 hrfs
    simp only [submitJob]
    rw [if_neg h400, if_pos hrfs, if_neg h401]
  · intro items first v hrfs hitems hfirst hid
    have h400 : status ≠ 400 := by
      intro h; rw [h] at hrfs; exact absurd hrfs (by decide)
    simp only [submitJob]
    rw [if_neg h400, if_neg (by rw [hrfs]; exact Bool.false_ne_true)]
    cases body with
    | jobj fs =>
      simp only [JVal.get] at hitems
      simp only [extractJobId, hitems]
      cases items with
      | nil => simp at hfirst
      | cons a l =>
        simp only [List.head?] at hfirst
        cases hfirst
        cases first with
        | jobj ffs =>
          simp only [JVal.get] at hid
          simp only [List.head?, hid]
        | jnull => simp [JVal.get] at hid
        | jbool b => simp [JVal.get] at hid
        | jnum n => simp [JVal.get] at hid
        | jstr s => simp [JVal.get] at hid
        | jarr l2 => simp [JVal.get] at hid
    | jnull => simp [JVal.get] at hitems
    | jbool b => simp [JVal.get] at hitems
    | jnum n => simp [JVal.get] at hitems
    | jstr s => simp [JVal.get] at hitems
    | jarr l => simp [JVal.get] at hitems

/-- C4 witness: a successful submission returning the first item's id, and
the 400 case carrying the body text. -/
theorem c4_submit_job_witness :
    submitJob (.resp 200 [] (.jobj [("items".toList,
        .jarr [.jobj [("id".toList, .jstr "job42".toList)]])])) =
      .ok (.jstr "job42".toList)
    ∧ submitJob (.resp 400 "bad query".toList .jnull) =
      .error (.queryError ("Invalid query syntax: bad query".toList) none) := by
  have h := c4_submit_job 200 [] "bad query".toList (.jobj [("items".toList,
    .jarr [.jobj [("id".toList, .jstr "job42".toList)]])])
  refine ⟨h.2.2.2.2 [.jobj [("id".toList, .jstr "job42".toList)]]
    (.jobj [("id".toList, .jstr "job42".toList)]) (.jstr "job42".toList)
    (by decide) rfl rfl rfl, ?_⟩
  have h2 := c4_submit_job 200 "bad query".toList [] .jnull
  exact h2.2.1.1

/-- C2 counterexample: the claim says the cached token is returned with no
network call whenever a token is cached and `now < expires_at - 300`, but
`_get_auth_token` tests the Python truthiness of `self._token`, so a
cached empty-string token within its validity window still triggers an
exchange (and the call does not return the cached token). -/
theorem c2_counterexample :
    ((0 : Int) < 1000000 - TOKEN_REFRESH_BUFFER)
    ∧ getAuthToken ⟨some [], 1000000⟩ 0 (.resp 200 [] "tok2".toList (some 3600)) =
        .ok ("tok2".toList, ⟨some "tok2".toList, 3600⟩, 1)
    ∧ (∀ st', getAuthToken ⟨some [], 1000000⟩ 0
        (.resp 200 [] "tok2".toList (some 3600)) ≠ .ok ([], st', 0)) := by
  refine ⟨by decide, rfl, ?_⟩
  intro st' h
  rw [show getAuthToken ⟨some [], 1000000⟩ 0 (.resp 200 [] "tok2".toList (some 3600)) =
    .ok ("tok2".toList, ⟨some "tok2".toList, 3600⟩, 1) from rfl] at h
  simp at h

/-- C2 (amended): `_get_auth_token` returns the cached token with no
authentication exchange exactly when a non-empty token is cached and
`now < expires_at - 300`; otherwise it performs exactly one exchange,
whose success stores the new token and `expires_at = now + expires_in`
(default 86400); hence two consecutive calls inside the validity window
perform one exchange in total, and a third call after forced invalidation
performs a second one. -/
theorem c2_token_cache (st : TokState) (now : Int) (resp : AuthResp) :
    (((∃ t, st.token = some t ∧ t ≠ []) ∧ now < st.expiresAt - TOKEN_REFRESH_BUFFER) ↔
      (∃ t, getAuthToken st now resp = .ok (t, st, 0) ∧ st.token = some t))
    ∧ (¬ ((∃ t, st.token = some t ∧ t ≠ []) ∧ now < st.expiresAt - TOKEN_REFRESH_BUFFER) →
        ∀ status text tok ei, resp = .resp status text tok ei →
          raiseForStatus status = false →
          getAuthToken st now resp =
            .ok (tok, ⟨some tok, now + ei.getD 86400⟩, 1))
    ∧ (∀ (now1 now2 now3 : Int) (tok1 tok3 text1 text3 : Str)
        (e1 e3 : Option Int) (resp2 : AuthResp),
        tok1 ≠ [] → now2 < (now1 + e1.getD 86400) - TOKEN_REFRESH_BUFFER →
        getAuthToken ⟨none, 0⟩ now1 (.resp 200 text1 tok1 e1) =
          .ok (tok1, ⟨some tok1, now1 + e1.getD 86400⟩, 1)
        ∧ getAuthToken ⟨some tok1, now1 + e1.getD 86400⟩ now2 resp2 =
          .ok (tok1, ⟨some tok1, now1 + e1.getD 86400⟩, 0)
        ∧ getAuthToken (invalidate ⟨some tok1, now1 + e1.getD 86400⟩) now3
            (.resp 200 text3 tok3 e3) =
          .ok (tok3, ⟨some tok3, now3 + e3.getD 86400⟩, 1)) := by
  have hcond : ∀ (s : TokState),
      (optTruthy s.token = true) ↔ (∃ t, s.token = some t ∧ t ≠ []) := by
    intro s
    cases h : s.token with
    | none => simp [optTruthy]
    | some t =>
      simp only [optTruthy, strTruthy]
      constructor
      · intro ht
        exact ⟨t, rfl, by simpa using ht⟩
      · rintro ⟨t', ht', hne⟩
        cases ht'
        simpa using hne
  refine ⟨?_, ?_, ?_⟩
  · constructor
    · rintro ⟨hex, hlt⟩
      have htr : optTruthy st.token = true := (hcond st).mpr hex
      obtain ⟨t, ht, -⟩ := hex
      refine ⟨t, ?_, ht⟩
      simp only [getAuthToken]
      rw [if_pos ⟨htr, hlt⟩]
      simp [ht]
    · rintro ⟨t, hok, ht⟩
      by_cases hc : optTruthy st.token = true ∧ now < st.expiresAt - TOKEN_REFRESH_BUFFER
      · exact ⟨(hcond st).mp hc.1, hc.2⟩
      · exfalso
        simp only [getAuthToken] at hok
        rw [if_neg hc] at hok
        cases resp with
        | transport m => simp [authenticate] at hok
        | resp status text tok ei =>
          simp only [authenticate] at hok
          by_cases hr : raiseForStatus status = true
          · rw [if_pos hr] at hok; simp at hok
          · rw [if_neg hr] at hok; simp at hok
  · intro hc status text tok ei hresp hrfs
    subst hresp
    simp only [getAuthToken]
    rw [if_neg (by
      intro ⟨h1, h2⟩
      exact hc ⟨(hcond st).mp h1, h2⟩)]
    simp [authenticate, hrfs]
  · intro now1 now2 now3 tok1 tok3 text1 text3 e1 e3 resp2 hne hin
    refine ⟨?_, ?_, ?_⟩
    · simp [getAuthToken, optTruthy, authenticate, raiseForStatus]
    · simp only [getAuthToken]
      rw [if_pos ⟨by simpa [optTruthy, strTruthy] using hne, hin⟩]
      rfl
    · simp [getAuthToken, invalidate, optTruthy, authenticate, raiseForStatus]

/-- C2 witness: a first call from the empty cache performs one exchange, a
second call 100 seconds later performs none and returns the cached token,
and a call after forced invalidation performs a second exchange. -/
theorem c2_token_cache_witness :
    getAuthToken ⟨none, 0⟩ 0 (.resp 200 [] "tokA".toList (some 86400)) =
      .ok ("tokA".toList, ⟨some "tokA".toList, 86400⟩, 1)
    ∧ getAuthToken ⟨some "tokA".toList, 86400⟩ 100 (.transport []) =
      .ok ("tokA".toList, ⟨some "tokA".toList, 86400⟩, 0)
    ∧ getAuthToken (invalidate ⟨some "tokA".toList, 86400⟩) 200
        (.resp 200 [] "tokB".toList (some 86400)) =
      .ok ("tokB".toList, ⟨some "tokB".toList, 200 + 86400⟩, 1) := by
  have h := (c2_token_cache ⟨none, 0⟩ 0
    (.resp 200 [] "tokA".toList (some 86400))).2.2
    0 100 200 "tokA".toList "tokB".toList [] [] (some 86400) (some 86400)
    (.transport []) (by decide) (by decide)
  refine ⟨by simpa using h.1, by simpa using h.2.1, by simpa using h.2.2⟩

/-- C3 counterexample: the claim says the explicit parameter takes
precedence over the environment field-by-field, but `load_config` uses
Python `or`, so an explicit empty-string parameter falls through to the
environment value: with `client_id=""` and `CRIBL_CLIENT_ID=envid` the
returned configuration carries `envid`, not the explicit value. -/
theorem c3_counterexample :
    load_config (some "".toList) (some "cs".toList) (some "org".toList)
        (some "ws".toList) ⟨some "envid".toList, none, none, none⟩ =
      .ok ⟨"envid".toList, "cs".toList, "org".toList, "ws".toList⟩
    ∧ "envid".toList ≠ "".toList := by
  exact ⟨rfl, by decide⟩


/-- The list of missing field keys, expressed field-by-field. -/
def missingOf (cid cs org ws : Option Str) (env : Env) : List Str :=
  (if optTruthy (pyOr cid env.cribl_client_id) then [] else ["client_id".toList])
  ++ (if optTruthy (pyOr cs env.cribl_client_secret) then [] else ["client_secret".toList])
  ++ (if optTruthy (pyOr org env.cribl_org_id) then [] else ["org_id".toList])
  ++ (if optTruthy (pyOr ws env.cribl_workspace) then [] else ["workspace".toList])

/-- Characterization of `load_config`: a complete configuration when no
field is missing, otherwise a `ConfigurationError` carrying the missing
keys and their env-var names. -/
lemma load_config_eq (cid cs org ws : Option Str) (env : Env) :
    load_config cid cs org ws env =
      if (missingOf cid cs org ws env).isEmpty then
        .ok ⟨(pyOr cid env.cribl_client_id).getD [],
             (pyOr cs env.cribl_client_secret).getD [],
             (pyOr org env.cribl_org_id).getD [],
             (pyOr ws env.cribl_workspace).getD []⟩
      else .error (.configError (missingOf cid cs org ws env)
        ((missingOf cid cs org ws env).map envVarName)) := by
  cases hb1 : optTruthy (pyOr cid env.cribl_client_id) <;>
  cases hb2 : optTruthy (pyOr cs env.cribl_client_secret) <;>
  cases hb3 : optTruthy (pyOr org env.cribl_org_id) <;>
  cases hb4 : optTruthy (pyOr ws env.cribl_workspace) <;>
  simp [load_config, resolvedFields, missingOf, hb1, hb2, hb3, hb4, envVarName]

/-- C3 (amended): field-by-field, a non-empty explicit parameter takes
precedence over the environment while an absent or empty parameter falls
back to the environment variable; `load_config` returns the complete
configuration of the four resolved values exactly when every field
resolves to a non-empty value, never returns any other (partial)
configuration, and otherwise raises `ConfigurationError` naming exactly
the fields whose resolution is absent or empty, with their env-var
names. -/
theorem c3_load_config (cid cs org ws : Option Str) (env : Env) :
    (∀ (p e : Option Str) (s : Str), p = some s → s ≠ [] → pyOr p e = some s)
    ∧ (∀ e : Option Str, pyOr none e = e ∧ pyOr (some []) e = e)
    ∧ (load_config cid cs org ws env =
        if (missingOf cid cs org ws env).isEmpty then
          .ok ⟨(pyOr cid env.cribl_client_id).getD [],
               (pyOr cs env.cribl_client_secret).getD [],
               (pyOr org env.cribl_org_id).getD [],
               (pyOr ws env.cribl_workspace).getD []⟩
        else .error (.configError (missingOf cid cs org ws env)
          ((missingOf cid cs org ws env).map envVarName)))
    ∧ (∀ c, load_config cid cs org ws env = .ok c →
        c = ⟨(pyOr cid env.cribl_client_id).getD [],
             (pyOr cs env.cribl_client_secret).getD [],
             (pyOr org env.cribl_org_id).getD [],
             (pyOr ws env.cribl_workspace).getD []⟩
        ∧ optTruthy (pyOr cid env.cribl_client_id) = true
        ∧ optTruthy (pyOr cs env.cribl_client_secret) = true
        ∧ optTruthy (pyOr org env.cribl_org_id) = true
        ∧ optTruthy (pyOr ws env.cribl_workspace) = true)
    ∧ (∀ miss missEnv,
        load_config cid cs org ws env = .error (.configError miss missEnv) →
        miss ≠ []
        ∧ missEnv = miss.map envVarName
        ∧ ("client_id".toList ∈ miss ↔
            optTruthy (pyOr cid env.cribl_client_id) = false)
        ∧ ("client_secret".toList ∈ miss ↔
            optTruthy (pyOr cs env.cribl_client_secret) = false)
        ∧ ("org_id".toList ∈ miss ↔
            optTruthy (pyOr org env.cribl_org_id) = false)
        ∧ ("workspace".toList ∈ miss ↔
            optTruthy (pyOr ws env.cribl_workspace) = false)) := by
  refine ⟨?_, ?_, load_config_eq cid cs org ws env, ?_, ?_⟩
  · intro p e s hp hs
    subst hp
    simp [pyOr, optTruthy, strTruthy, hs]
  · intro e
    exact ⟨rfl, rfl⟩
  · rw [load_config_eq]
    cases hb1 : optTruthy (pyOr cid env.cribl_client_id) <;>
    cases hb2 : optTruthy (pyOr cs env.cribl_client_secret) <;>
    cases hb3 : optTruthy (pyOr org env.cribl_org_id) <;>
    cases hb4 : optTruthy (pyOr ws env.cribl_workspace) <;>
    simp_all [missingOf]
  · rw [load_config_eq]
    cases hb1 : optTruthy (pyOr cid env.cribl_client_id) <;>
    cases hb2 : optTruthy (pyOr cs env.cribl_client_secret) <;>
    cases hb3 : optTruthy (pyOr org env.cribl_org_id) <;>
    cases hb4 : optTruthy (pyOr ws env.cribl_workspace) <;>
    simp_all [missingOf]

/-- C3 witness: with `client_id` explicit, `org_id` from the environment,
`client_secret` absent everywhere and `workspace` explicitly empty, the
error names exactly `client_secret` and `workspace`. -/
theorem c3_load_config_witness :
    load_config (some "id".toList) none none (some [])
        ⟨none, none, some "o".toList, none⟩ =
      .error (.configError ["client_secret".toList, "workspace".toList]
        ["CRIBL_CLIENT_SECRET".toList, "CRIBL_WORKSPACE".toList])
    ∧ "client_secret".toList ∈ ["client_secret".toList, "workspace".toList]
    ∧ ¬ "client_id".toList ∈ ["client_secret".toList, "workspace".toList] := by
  have h := (c3_load_config (some "id".toList) none none (some [])
    ⟨none, none, some "o".toList, none⟩).2.2.2.2
    ["client_secret".toList, "workspace".toList]
    ["CRIBL_CLIENT_SECRET".toList, "CRIBL_WORKSPACE".toList] rfl
  refine ⟨rfl, h.2.2.2.1.mpr rfl, ?_⟩
  intro hm
  have hfalse := h.2.2.1.mp hm
  simp [pyOr, optTruthy, strTruthy] at hfalse

/-- The trace only grows: the events passed in are a prefix of the events
returned. -/
lemma waitLoop_trace_mono (env : WaitEnv) :
    ∀ (fuel i : Nat) (evs : List PollEvent), evs <+: (waitLoop env fuel i evs).2 := by
  intro fuel
  induction fuel with
  | zero => intro i evs; exact List.prefix_refl evs
  | succ f ih =>
    intro i evs
    simp only [waitLoop]
    by_cases hdl : env.times i - env.start > env.timeout
    · rw [if_pos hdl]
    · rw [if_neg hdl]
      cases hfetch : env.fetch i with
      | transport m => exact List.prefix_append evs [.fetched i]
      | resp status jobStatus errorField =>
        by_cases hrfs : raiseForStatus status = true
        · simp only [hrfs, if_true]
          exact List.prefix_append evs [.fetched i]
        · simp only [hrfs, if_false, Bool.false_eq_true]
          by_cases hc : jobStatus = "completed".toList
          · rw [if_pos hc]; exact List.prefix_append evs [.fetched i]
          · rw [if_neg hc]
            by_cases hf : jobStatus = "failed".toList
            · rw [if_pos hf]; exact List.prefix_append evs [.fetched i]
            · rw [if_neg hf]
              by_cases hcan : jobStatus = "canceled".toList
              · rw [if_pos hcan]; exact List.prefix_append evs [.fetched i]
              · rw [if_neg hcan]
                exact ((List.prefix_append evs _).trans
                  (List.prefix_append _ _)).trans (ih (i + 1) _)

/-- Advancing the poll loop over `d` non-terminal, within-deadline
iterations. -/
lemma waitLoop_advance (env : WaitEnv) :
    ∀ (d i : Nat) (evs : List PollEvent) (fuel : Nat), d ≤ fuel →
    (∀ j, i ≤ j → j < i + d →
      env.times j - env.start ≤ env.timeout ∧ continuesPolling (env.fetch j)) →
    waitLoop env fuel i evs =
      waitLoop env (fuel - d) (i + d)
        (evs ++ ((List.range' i d).map
          (fun j => [PollEvent.fetched j, PollEvent.slept j])).flatten) := by
  intro d
  induction d with
  | zero => intro i evs fuel _ _; simp
  | succ d ih =>
    intro i evs fuel hfuel hgood
    obtain ⟨f, rfl⟩ : ∃ f, fuel = f + 1 := ⟨fuel - 1, by omega⟩
    have h0 := hgood i (le_refl i) (by omega)
    obtain ⟨s, js, ef, hfetch, hrfs, hnc, hnf, hncan⟩ := h0.2
    have hdl : ¬ env.times i - env.start > env.timeout := not_lt.mpr h0.1
    rw [show waitLoop env (f + 1) i evs =
      waitLoop env f (i + 1) ((evs ++ [.fetched i]) ++ [.slept i]) from by
        simp only [waitLoop]
        rw [if_neg hdl, hfetch]
        simp only [hrfs, Bool.false_eq_true, if_false]
        rw [if_neg hnc, if_neg hnf, if_neg hncan]]
    refine (ih (i + 1) ((evs ++ [PollEvent.fetched i]) ++ [PollEvent.slept i]) f (by omega)
      (fun j hj1 hj2 => hgood j (by omega) (by omega))).trans ?_
    have e1 : f + 1 - (d + 1) = f - d := by omega
    have e2 : i + (d + 1) = i + 1 + d := by omega
    rw [e1, e2, List.range'_succ]
    simp [List.append_assoc]

/-- Membership in the prefix trace. -/
lemma mem_prefixEvents {e : PollEvent} {k : Nat} :
    e ∈ prefixEvents k ↔ ∃ j, j < k ∧ (e = .fetched j ∨ e = .slept j) := by
  simp only [prefixEvents, List.mem_flatten, List.mem_map, List.mem_range]
  constructor
  · rintro ⟨l, ⟨j, hj, rfl⟩, hm⟩
    simp only [List.mem_cons, List.mem_singleton] at hm
    exact ⟨j, hj, by tauto⟩
  · rintro ⟨j, hj, h | h⟩ <;>
    exact ⟨[PollEvent.fetched j, PollEvent.slept j], ⟨j, hj, rfl⟩, by simp [h]⟩

/-- Run of the poll loop, advanced over the first `k` non-terminal
iterations. -/
lemma waitForJob_advance (env : WaitEnv) (k fuel : Nat) (hk : k ≤ fuel)
    (hgood : ∀ j < k,
      env.times j - env.start ≤ env.timeout ∧ continuesPolling (env.fetch j)) :
    waitForJob env fuel = waitLoop env (fuel - k) k (prefixEvents k) := by
  have h := waitLoop_advance env k 0 [] fuel hk
    (fun j hj1 hj2 => hgood j (by omega))
  simpa [waitForJob, prefixEvents, List.range_eq_range'] using h

/-- C6: at the first iteration whose elapsed time exceeds the timeout, the
poll loop raises `TimeoutError` carrying the guidance text, without
issuing that iteration's status fetch or sleep: the event trace stops at
the previous iteration. -/
theorem c6_deadline (env : WaitEnv) (fuel k : Nat)
    (hfuel : k < fuel)
    (hgood : ∀ j < k,
      env.times j - env.start ≤ env.timeout ∧ continuesPolling (env.fetch j))
    (hdl : env.times k - env.start > env.timeout) :
    waitForJob env fuel =
      (.error (.timeoutError (timeoutMsg env.timeout)), prefixEvents k)
    ∧ guidanceText <:+: timeoutMsg env.timeout
    ∧ (∀ j, PollEvent.fetched j ∈ (waitForJob env fuel).2 → j < k)
    ∧ (∀ j, PollEvent.slept j ∈ (waitForJob env fuel).2 → j < k) := by
  have hadv := waitForJob_advance env k fuel (le_of_lt hfuel) hgood
  obtain ⟨m, hm⟩ : ∃ m, fuel - k = m + 1 := ⟨fuel - k - 1, by omega⟩
  have hmain : waitForJob env fuel =
      (.error (.timeoutError (timeoutMsg env.timeout)), prefixEvents k) := by
    rw [hadv, hm]
    simp only [waitLoop]
    rw [if_pos hdl]
  refine ⟨hmain, ?_, ?_, ?_⟩
  · refine ⟨"Query did not complete within ".toList ++ intToStr env.timeout
      ++ " seconds. ".toList, [], ?_⟩
    rw [List.append_nil]
    show ("Query did not complete within ".toList ++ intToStr env.timeout
      ++ " seconds. ".toList) ++ guidanceText = timeoutMsg env.timeout
    simp only [timeoutMsg, guidanceText, List.append_assoc]
    congr 2
  · intro j hj
    rw [hmain] at hj
    obtain ⟨j', hj', h | h⟩ := mem_prefixEvents.mp hj
    · cases h; exact hj'
    · cases h
  · intro j hj
    rw [hmain] at hj
    obtain ⟨j', hj', h | h⟩ := mem_prefixEvents.mp hj
    · cases h
    · cases h; exact hj'

/-- C6 witness: timeout 10 with the clock advancing 12 seconds per
iteration: the deadline check of iteration 1 raises `TimeoutError` after
exactly one fetch and one sleep. -/
theorem c6_deadline_witness :
    waitForJob ⟨"j".toList, 10, 0, (fun i => 12 * i),
        (fun _ => .resp 200 "running".toList none)⟩ 5 =
      (.error (.timeoutError (timeoutMsg 10)), [.fetched 0, .slept 0])
    ∧ guidanceText <:+: timeoutMsg 10 := by
  have h := c6_deadline ⟨"j".toList, 10, 0, (fun i => 12 * i),
      (fun _ => .resp 200 "running".toList none)⟩ 5 1 (by omega)
    (fun j hj => by
      obtain rfl : j = 0 := by omega
      exact ⟨by decide, ⟨200, "running".toList, none, rfl, by decide,
        by decide, by decide, by decide⟩⟩)
    (by decide)
  exact ⟨h.1.trans (by rfl), h.2.1⟩

/-- C5: within the deadline, a `failed` status raises `QueryError` whose
message contains the server-reported error (default "Unknown error") and
whose job id is the polled job's; `canceled` raises `QueryError` with that
job id; any other non-terminal status leads to a sleep and another poll
iteration. -/
theorem c5_terminal_status (env : WaitEnv) (fuel k : Nat)
    (hfuel : k < fuel)
    (hgood : ∀ j < k,
      env.times j - env.start ≤ env.timeout ∧ continuesPolling (env.fetch j))
    (hdl : env.times k - env.start ≤ env.timeout) :
    (∀ s ef, raiseForStatus s = false →
      env.fetch k = .resp s "failed".toList ef →
      waitForJob env fuel =
        (.error (.queryError ("Query failed: ".toList
            ++ ef.getD "Unknown error".toList) (some env.jobId)),
         prefixEvents k ++ [.fetched k])
      ∧ (ef.getD "Unknown error".toList) <:+:
          ("Query failed: ".toList ++ ef.getD "Unknown error".toList))
    ∧ (∀ s ef, raiseForStatus s = false →
        env.fetch k = .resp s "canceled".toList ef →
        waitForJob env fuel =
          (.error (.queryError "Query was canceled".toList (some env.jobId)),
           prefixEvents k ++ [.fetched k]))
    ∧ (∀ s js ef, raiseForStatus s = false →
        js ≠ "completed".toList → js ≠ "failed".toList →
        js ≠ "canceled".toList →
        env.fetch k = .resp s js ef →
        waitForJob env fuel =
          waitLoop env (fuel - (k + 1)) (k + 1) (prefixEvents (k + 1))
        ∧ PollEvent.slept k ∈ (waitForJob env fuel).2) := by
  have hadv := waitForJob_advance env k fuel (le_of_lt hfuel) hgood
  obtain ⟨m, hm⟩ : ∃ m, fuel - k = m + 1 := ⟨fuel - k - 1, by omega⟩
  have hdl' : ¬ env.times k - env.start > env.timeout := not_lt.mpr hdl
  refine ⟨?_, ?_, ?_⟩
  · intro s ef hrfs hfetch
    refine ⟨?_, within_of_suffix (List.suffix_append _ _)⟩
    rw [hadv, hm]
    simp only [waitLoop]
    rw [if_neg hdl', hfetch]
    simp only [hrfs, Bool.false_eq_true, if_false]
    rw [if_neg (by decide : ¬ ("failed".toList = "completed".toList))]
    simp
  · intro s ef hrfs hfetch
    rw [hadv, hm]
    simp only [waitLoop]
    rw [if_neg hdl', hfetch]
    simp only [hrfs, Bool.false_eq_true, if_false]
    rw [if_neg (by decide : ¬ ("canceled".toList = "completed".toList)),
      if_neg (by decide : ¬ ("canceled".toList = "failed".toList))]
    simp
  · intro s js ef hrfs hnc hnf hncan hfetch
    have hgood' : ∀ j < k + 1,
        env.times j - env.start ≤ env.timeout ∧ continuesPolling (env.fetch j) := by
      intro j hj
      by_cases hjk : j < k
      · exact hgood j hjk
      · have : j = k := by omega
        subst this
        exact ⟨hdl, ⟨s, js, ef, hfetch, hrfs, hnc, hnf, hncan⟩⟩
    have hadv' := waitForJob_advance env (k + 1) fuel hfuel hgood'
    refine ⟨hadv', ?_⟩
    rw [hadv']
    exact (waitLoop_trace_mono env (fuel - (k + 1)) (k + 1)
      (prefixEvents (k + 1))).subset
      (mem_prefixEvents.mpr ⟨k, by omega, Or.inr rfl⟩)

/-- C5 witness: after one `running` iteration, a `failed` status with
error "Dataset not found" raises a `QueryError` whose message contains it
and whose job id is the submitted job's. -/
theorem c5_terminal_status_witness :
    waitForJob ⟨"jobX".toList, 300, 0, (fun _ => 0),
        (fun i => if i = 0 then .resp 200 "running".toList none
          else .resp 200 "failed".toList (some "Dataset not found".toList))⟩ 5 =
      (.error (.queryError "Query failed: Dataset not found".toList
        (some "jobX".toList)), [.fetched 0, .slept 0, .fetched 1])
    ∧ "Dataset not found".toList <:+: "Query failed: Dataset not found".toList := by
  have h := (c5_terminal_status ⟨"jobX".toList, 300, 0, (fun _ => 0),
      (fun i => if i = 0 then .resp 200 "running".toList none
        else .resp 200 "failed".toList (some "Dataset not found".toList))⟩ 5 1
    (by omega)
    (fun j hj => by
      obtain rfl : j = 0 := by omega
      exact ⟨by decide, ⟨200, "running".toList, none, rfl, by decide,
        by decide, by decide, by decide⟩⟩)
    (by decide)).1 200 (some "Dataset not found".toList) (by decide) rfl
  exact ⟨h.1.trans (by rfl), by simpa using h.2⟩

/-- C7: a status-fetch failure during polling — transport failure or any
HTTP error status, including 401 — raises `QueryError`, never
`AuthenticationError`, unlike `list_datasets` (and `_submit_job`) where
401 is special-cased to `AuthenticationError`. -/
theorem c7_status_fetch_errors (env : WaitEnv) (fuel k : Nat)
    (hfuel : k < fuel)
    (hgood : ∀ j < k,
      env.times j - env.start ≤ env.timeout ∧ continuesPolling (env.fetch j))
    (hdl : env.times k - env.start ≤ env.timeout) :
    (∀ m, env.fetch k = .transport m →
      waitForJob env fuel =
        (.error (.queryError ("Failed to check job status: ".toList ++ m) none),
         prefixEvents k ++ [.fetched k]))
    ∧ (∀ s js ef, raiseForStatus s = true → env.fetch k = .resp s js ef →
        waitForJob env fuel =
          (.error (.queryError ("Failed to check job status: ".toList
            ++ showHTTPError s) none), prefixEvents k ++ [.fetched k]))
    ∧ (∀ js ef, env.fetch k = .resp 401 js ef →
        (waitForJob env fuel).1 =
          .error (.queryError ("Failed to check job status: ".toList
            ++ showHTTPError 401) none)
        ∧ (∀ m, (waitForJob env fuel).1 ≠ .error (.authError m)))
    ∧ (∀ items, list_datasets (.resp 401 items) =
        .error (.authError "Authentication failed".toList)) := by
  have hadv := waitForJob_advance env k fuel (le_of_lt hfuel) hgood
  obtain ⟨m', hm⟩ : ∃ m', fuel - k = m' + 1 := ⟨fuel - k - 1, by omega⟩
  have hdl' : ¬ env.times k - env.start > env.timeout := not_lt.mpr hdl
  have htransport : ∀ m, env.fetch k = .transport m →
      waitForJob env fuel =
        (.error (.queryError ("Failed to check job status: ".toList ++ m) none),
         prefixEvents k ++ [.fetched k]) := by
    intro m hfetch
    rw [hadv, hm]
    simp only [waitLoop]
    rw [if_neg hdl', hfetch]
  have hhttp : ∀ s js ef, raiseForStatus s = true → env.fetch k = .resp s js ef →
      waitForJob env fuel =
        (.error (.queryError ("Failed to check job status: ".toList
          ++ showHTTPError s) none), prefixEvents k ++ [.fetched k]) := by
    intro s js ef hrfs hfetch
    rw [hadv, hm]
    simp only [waitLoop]
    rw [if_neg hdl', hfetch]
    simp only [hrfs, if_true]
  refine ⟨htransport, hhttp, ?_, ?_⟩
  · intro js ef hfetch
    have h := hhttp 401 js ef (by decide) hfetch
    rw [h]
    exact ⟨rfl, fun m hne => by simp at hne⟩
  · intro items
    rfl

/-- C7 witness: a 401 status response during polling yields `QueryError`
(not `AuthenticationError`), while the same 401 on the datasets endpoint
yields `AuthenticationError`. -/
theorem c7_status_fetch_errors_witness :
    (waitForJob ⟨"j7".toList, 300, 0, (fun _ => 0),
        (fun _ => .resp 401 "running".toList none)⟩ 3).1 =
      .error (.queryError ("Failed to check job status: ".toList
        ++ showHTTPError 401) none)
    ∧ list_datasets (.resp 401 []) =
      .error (.authError "Authentication failed".toList) := by
  have h := c7_status_fetch_errors ⟨"j7".toList, 300, 0, (fun _ => 0),
      (fun _ => .resp 401 "running".toList none)⟩ 3 0
    (by omega) (fun j hj => absurd hj (by omega)) (by decide)
  exact ⟨(h.2.2.1 "running".toList none rfl).1, h.2.2.2 []⟩

/-- Characterization of the iteration count: for `k ≥ 1`, the loop needs at
most `k` iterations iff `k` pages of size 1000 cover `N` events. -/
lemma numPages_le_iff (N k : Nat) (hk : 1 ≤ k) :
    numPages N ≤ k ↔ N ≤ PAGE_SIZE * k := by
  simp only [numPages, PAGE_SIZE]
  omega

/-- Advancing the pagination loop over `d` non-final pages. -/
lemma getResultsLoop_advance (fetch : Nat → PageResp) (counts : Nat → Int)
    (recs : Nat → List JVal) :
    ∀ (d i : Nat) (acc : List JVal) (fuel : Nat), d ≤ fuel →
    (∀ j, i ≤ j → j < i + d → ∃ body, fetch (PAGE_SIZE * j) = .ok body ∧
      processBody body = .page (.jnum (counts j)) (recs j) ∧
      ((PAGE_SIZE * (j + 1) : Nat) : Int) < counts j) →
    getResultsLoop fetch fuel (PAGE_SIZE * i) acc =
      getResultsLoop fetch (fuel - d) (PAGE_SIZE * (i + d))
        (acc ++ ((List.range' i d).map recs).flatten) := by
  intro d
  induction d with
  | zero => intro i acc fuel _ _; simp
  | succ d ih =>
    intro i acc fuel hfuel hgood
    obtain ⟨f, rfl⟩ : ∃ f, fuel = f + 1 := ⟨fuel - 1, by omega⟩
    obtain ⟨body, hfetch, hproc, hlt⟩ := hgood i (le_refl i) (by omega)
    have hstep : getResultsLoop fetch (f + 1) (PAGE_SIZE * i) acc =
        getResultsLoop fetch f (PAGE_SIZE * (i + 1)) (acc ++ recs i) := by
      simp only [getResultsLoop, hfetch, hproc, pyNumOfJVal]
      rw [if_neg (by simp only [PAGE_SIZE] at hlt ⊢; push_cast at hlt ⊢; omega)]
      have harith : PAGE_SIZE * i + PAGE_SIZE = PAGE_SIZE * (i + 1) := by ring
      rw [harith]
    rw [hstep]
    refine (ih (i + 1) (acc ++ recs i) f (by omega)
      (fun j hj1 hj2 => hgood j (by omega) (by omega))).trans ?_
    have e1 : f + 1 - (d + 1) = f - d := by omega
    have e2 : i + (d + 1) = i + 1 + d := by omega
    rw [e1, e2, List.range'_succ]
    simp [List.append_assoc]

/-- Blank lines contribute nothing to the parsed records of a page. -/
lemma parseRecords_blank (b : Str) (hb : pyStrip b = []) :
    ∀ ls1 ls2 : List Str,
      parseRecords (ls1 ++ b :: ls2) = parseRecords (ls1 ++ ls2) := by
  intro ls1
  induction ls1 with
  | nil =>
    intro ls2
    simp only [List.nil_append, parseRecords, strTruthy, hb, List.isEmpty_nil,
      Bool.not_true, Bool.false_eq_true, if_false]
  | cons l ls ih =>
    intro ls2
    simp only [List.cons_append, parseRecords, List.append_eq]
    rw [ih]

/-- C1: when every page reports `totalEventCount = N`, `_get_results`
fetches exactly the pages at offsets `0, 1000, 2000, …` until the stepped
offset reaches `N`, and returns precisely the concatenation of their
non-blank record lines, in order; blank lines contribute nothing. -/
theorem c1_pagination (fetch : Nat → PageResp) (bodies : Nat → Str)
    (rs : Nat → List JVal) (N fuel : Nat)
    (hfuel : numPages N ≤ fuel)
    (hpages : ∀ i < numPages N, fetch (PAGE_SIZE * i) = .ok (bodies i) ∧
      processBody (bodies i) = .page (.jnum N) (rs i)) :
    getResults fetch fuel = .ok (((List.range (numPages N)).map rs).flatten)
    ∧ (∀ (ls1 ls2 : List Str) (b : Str), pyStrip b = [] →
        parseRecords (ls1 ++ b :: ls2) = parseRecords (ls1 ++ ls2)) := by
  refine ⟨?_, fun ls1 ls2 b hb => parseRecords_blank b hb ls1 ls2⟩
  obtain ⟨d, hd⟩ : ∃ d, numPages N = d + 1 :=
    ⟨numPages N - 1, by simp only [numPages]; omega⟩
  have hadv := getResultsLoop_advance fetch (fun _ => (N : Int)) rs d 0 [] fuel
    (by omega)
    (by
      intro j hj1 hj2
      obtain ⟨hf, hp⟩ := hpages j (by omega)
      refine ⟨bodies j, hf, hp, ?_⟩
      have hnp : ¬ (numPages N ≤ j + 1) := by omega
      rw [numPages_le_iff N (j + 1) (by omega)] at hnp
      simp only [PAGE_SIZE] at hnp ⊢
      push_cast
      omega)
  have h0 : (PAGE_SIZE * 0 : Nat) = 0 := by simp
  rw [getResults, ← h0, hadv]
  obtain ⟨g, hg⟩ : ∃ g, fuel - d = g + 1 := ⟨fuel - d - 1, by omega⟩
  obtain ⟨hf, hp⟩ := hpages d (by omega)
  rw [hg]
  simp only [getResultsLoop, Nat.zero_add, hf, hp, pyNumOfJVal]
  rw [if_pos (by
    have : numPages N ≤ d + 1 := by omega
    rw [numPages_le_iff N (d + 1) (by omega)] at this
    simp only [PAGE_SIZE] at this ⊢
    push_cast
    omega)]
  rw [hd]
  congr 1
  rw [List.range_succ, List.range_eq_range']
  simp [List.append_assoc]

/-- C1 witness: one page with metadata `totalEventCount = 2`, two record
lines and an interspersed blank line yields exactly the two records, in
order. -/
theorem c1_pagination_witness :
    getResults (fun _ => .ok "\x7b\"totalEventCount\": 2\x7d\n\x7b\"message\": \"log1\"\x7d\n\n\x7b\"message\": \"log2\"\x7d".toList) 1 =
      .ok [.jobj [("message".toList, .jstr "log1".toList)],
           .jobj [("message".toList, .jstr "log2".toList)]] := by
  have h := c1_pagination
    (fun _ => .ok "\x7b\"totalEventCount\": 2\x7d\n\x7b\"message\": \"log1\"\x7d\n\n\x7b\"message\": \"log2\"\x7d".toList)
    (fun _ => "\x7b\"totalEventCount\": 2\x7d\n\x7b\"message\": \"log1\"\x7d\n\n\x7b\"message\": \"log2\"\x7d".toList)
    (fun _ => [.jobj [("message".toList, .jstr "log1".toList)],
               .jobj [("message".toList, .jstr "log2".toList)]])
    2 1 (by decide) (fun i hi => ⟨rfl, by rfl⟩)
  exact h.1.trans (by rfl)

/-- C9: if the fetch of a later page fails after earlier pages succeeded,
the whole `_get_results` call yields `QueryError` and no record list is
returned: the caller sees either the complete table or an error, never a
partial table. -/
theorem c9_atomic_failure (fetch : Nat → PageResp) (k fuel : Nat)
    (counts : Nat → Int) (recs : Nat → List JVal) (m : Str)
    (hfuel : k < fuel)
    (hearlier : ∀ j < k, ∃ body, fetch (PAGE_SIZE * j) = .ok body ∧
      processBody body = .page (.jnum (counts j)) (recs j) ∧
      ((PAGE_SIZE * (j + 1) : Nat) : Int) < counts j)
    (hfail : fetch (PAGE_SIZE * k) = .error m) :
    getResults fetch fuel =
      .error (.queryError ("Failed to retrieve results: ".toList ++ m) none)
    ∧ (∀ l, getResults fetch fuel ≠ .ok l) := by
  have hadv := getResultsLoop_advance fetch counts recs k 0 [] fuel
    (by omega) (fun j hj1 hj2 => hearlier j (by omega))
  have h0 : (PAGE_SIZE * 0 : Nat) = 0 := by simp
  have hmain : getResults fetch fuel =
      .error (.queryError ("Failed to retrieve results: ".toList ++ m) none) := by
    rw [getResults, ← h0, hadv]
    obtain ⟨g, hg⟩ : ∃ g, fuel - k = g + 1 := ⟨fuel - k - 1, by omega⟩
    rw [hg]
    simp only [getResultsLoop, Nat.zero_add, hfail]
  exact ⟨hmain, fun l hne => by rw [hmain] at hne; exact Except.noConfusion hne⟩

/-- C9 witness: the first page declares 2000 events, so a second page is
fetched; its transport failure discards the first page's record. -/
theorem c9_atomic_failure_witness :
    getResults (fun off =>
      if off = 0 then .ok "\x7b\"totalEventCount\": 2000\x7d\n\x7b\"message\": \"log1\"\x7d".toList
      else .error "connection reset".toList) 3 =
      .error (.queryError
        "Failed to retrieve results: connection reset".toList none) := by
  have h := c9_atomic_failure (fun off =>
      if off = 0 then .ok "\x7b\"totalEventCount\": 2000\x7d\n\x7b\"message\": \"log1\"\x7d".toList
      else .error "connection reset".toList) 1 3
    (fun _ => 2000) (fun _ => [.jobj [("message".toList, .jstr "log1".toList)]])
    "connection reset".toList (by omega)
    (fun j hj => by
      obtain rfl : j = 0 := by omega
      exact ⟨"\x7b\"totalEventCount\": 2000\x7d\n\x7b\"message\": \"log1\"\x7d".toList,
        rfl, by rfl, by decide⟩)
    rfl
  exact h.1.trans (by rfl)

/-- Splitting never yields the empty list. -/
lemma splitNewline_ne_nil (s : Str) : splitNewline s ≠ [] := by
  induction s with
  | nil => simp [splitNewline]
  | cons c cs ih =>
    simp only [splitNewline]
    by_cases hc : c = '\n'
    · rw [if_pos hc]; exact List.cons_ne_nil _ _
    · rw [if_neg hc]
      cases h : splitNewline cs with
      | nil => exact List.cons_ne_nil _ _
      | cons l ls => exact List.cons_ne_nil _ _

/-- C10: the `if not lines: break` guard of `_get_results` is unreachable
— splitting a (stripped) body always yields at least one line, and a
stripped-empty body yields exactly one empty line — so a page whose body
is empty, or whose first line is not valid JSON, makes `_get_results`
raise a raw `json.JSONDecodeError`, which is not one of the library's
typed errors. -/
theorem c10_decode_error :
    (∀ s : Str, splitNewline s ≠ [])
    ∧ (∀ s : Str, pyStrip s = [] → splitNewline (pyStrip s) = [[]])
    ∧ (∀ body : Str, processBody body ≠ .emptyLines)
    ∧ (∀ (fetch : Nat → PageResp) (fuel : Nat) (body l0 : Str)
        (rest : List Str), 0 < fuel → fetch 0 = .ok body →
        splitNewline (pyStrip body) = l0 :: rest → jsonLoads l0 = none →
        getResults fetch fuel = .error .jsonDecodeError)
    ∧ SgError.isTypedError .jsonDecodeError = false := by
  refine ⟨splitNewline_ne_nil, ?_, ?_, ?_, rfl⟩
  · intro s hs
    rw [hs]
    rfl
  · intro body h
    unfold processBody at h
    cases hs : splitNewline (pyStrip body) with
    | nil => exact splitNewline_ne_nil _ hs
    | cons l0 rest =>
      rw [hs] at h
      cases hj : jsonLoads l0 with
      | none => simp [hj] at h
      | some meta =>
        cases meta <;>
        · cases hp : parseRecords rest <;> simp [hj, hp] at h
  · intro fetch fuel body l0 rest hfuel hfetch hsplit hj
    obtain ⟨f, rfl⟩ : ∃ f, fuel = f + 1 := ⟨fuel - 1, by omega⟩
    have hproc : processBody body = .fail .jsonDecodeError := by
      unfold processBody
      rw [hsplit]
      simp [hj]
    rw [getResults]
    simp only [getResultsLoop, hfetch, hproc]

/-- C10 witness: an empty page body strips to the single empty line, whose
JSON parse fails, so the raw decode error escapes. -/
theorem c10_decode_error_witness :
    getResults (fun _ => .ok [] : Nat → PageResp) 1 = .error .jsonDecodeError
    ∧ SgError.isTypedError .jsonDecodeError = false := by
  have h := c10_decode_error
  exact ⟨h.2.2.2.1 (fun _ => .ok []) 1 [] [] [] (by omega) rfl rfl rfl, h.2.2.2.2⟩
